import Mathlib

/-!
Verification development for the lai4sr repository: shallow embeddings of
the scripts of the repository (parcel statistics, folder traversal, LUT
generation and LAI retrieval pipelines, PlanetScope metadata parsing)
together with theorems settling the specification claims.

Numbers are modelled by the rationals; a float NaN is modelled by
`Option.none`.  Square roots and natural logarithms (which the scripts
take from numpy) are kept abstract as function parameters, since the
claims under scrutiny never depend on their values.
-/

namespace Lai4sr

/-! Stable insertion sort, the model of the numpy sorting used by
`np.unique`, `np.median` and the cost-ranking of the inversion. -/

def insertB {α : Type} (le : α → α → Bool) (a : α) : List α → List α
  | [] => [a]
  | b :: t => if le a b then a :: b :: t else b :: insertB le a t

def sortB {α : Type} (le : α → α → Bool) (l : List α) : List α :=
  l.foldr (insertB le) []

theorem insertB_perm {α : Type} (le : α → α → Bool) (a : α) (l : List α) :
    (insertB le a l).Perm (a :: l) := by
  induction l with
  | nil => simp [insertB]
  | cons b t ih =>
    simp only [insertB]
    split
    · exact List.Perm.refl _
    · exact (List.Perm.cons b ih).trans (List.Perm.swap a b t)

theorem sortB_perm {α : Type} (le : α → α → Bool) (l : List α) :
    (sortB le l).Perm l := by
  induction l with
  | nil => simp [sortB]
  | cons a t ih =>
    simp only [sortB, List.foldr] at *
    exact (insertB_perm le a _).trans (List.Perm.cons a ih)

/-! Numpy primitives used by `scripts/parcel_statistics.py`, modelled from
their documented semantics.  An array with possible NaNs is a
`List (Option ℚ)`. -/

/-- The non-NaN elements of an array, in order. -/
def filterNonNaN (x : List (Option ℚ)) : List ℚ :=
  x.filterMap id

/-- Arithmetic mean of a list of rationals (`np.mean` on a float array). -/
def listMean (l : List ℚ) : ℚ :=
  l.sum / l.length

/-- Numpy `nanmean`: mean of the non-NaN elements. -/
def nanmean (x : List (Option ℚ)) : ℚ :=
  listMean (filterNonNaN x)

/-- Population variance (`ddof = 0`) of a list of rationals. -/
def popVariance (l : List ℚ) : ℚ :=
  listMean (l.map (fun v => (v - listMean l) ^ 2))

/-- Numpy `nanstd` with its default `ddof = 0`: the square root `s` of the
population variance of the non-NaN elements; `s` abstracts `np.sqrt`. -/
def nanstd (s : ℚ → ℚ) (x : List (Option ℚ)) : ℚ :=
  s (popVariance (filterNonNaN x))

/-- Population standard deviation of a plain list, the spec-side notion
used by claim C2 ( `s` abstracts the square root). -/
def popStdDev (s : ℚ → ℚ) (l : List ℚ) : ℚ :=
  s (popVariance l)

/-- Body of `coefficient_of_variation` from `scripts/parcel_statistics.py`
(the body under the decorator):
`np.nanstd(x, axis=None) / np.nanmean(x)`. -/
def coefficient_of_variation (s : ℚ → ℚ) (x : List (Option ℚ)) : ℚ :=
  nanstd s x / nanmean x

/-- Comparison used by the sort inside `np.unique`: NaN sorts after every number,
equal NaNs are collapsed by deduplication beforehand. -/
def optLe (a b : Option ℚ) : Bool :=
  match a, b with
  | some x, some y => decide (x ≤ y)
  | some _, none => true
  | none, some _ => false
  | none, none => true

/-- Counts part of `np.unique(x, return_counts=True)`: the occurrence counts of the
distinct values of `x`, listed in sorted order of the values. -/
def np_unique_counts (x : List (Option ℚ)) : List Nat :=
  (sortB optLe x.dedup).map (fun v => x.count v)

/-- Body of `entropy` from `scripts/parcel_statistics.py` (under the
decorator): `p = np.unique(x, return_counts=True)[1] / x.size` followed by
`-np.sum(p * np.log(p))`; `lg` abstracts `np.log`. -/
def entropy (lg : ℚ → ℚ) (x : List (Option ℚ)) : ℚ :=
  -(((np_unique_counts x).map
      (fun c : Nat => ((c : ℚ) / x.length) * lg ((c : ℚ) / x.length))).sum)

/-- The spec-side entropy of claim C3: minus the sum, over the distinct
values `v` of `x`, of `(c_v / n) * log (c_v / n)` where `c_v` is the
number of occurrences of `v` and `n` the total number of elements. -/
def entropy_spec (lg : ℚ → ℚ) (x : List (Option ℚ)) : ℚ :=
  -((x.dedup.map
      (fun v => ((x.count v : ℚ) / x.length) * lg ((x.count v : ℚ) / x.length))).sum)

/-! The decorator `masked_array_to_ndarray` and the decorated statistics.
A masked-array element is a value together with its mask flag. -/

structure MaskedEntry where
  val : ℚ
  masked : Bool
deriving DecidableEq, Repr

/-- Filling with `np.nan`: masked elements become NaN. -/
def filled (x : List MaskedEntry) : List (Option ℚ) :=
  x.map (fun e => if e.masked then none else some e.val)

/-- The decorator from `scripts/parcel_statistics.py`: fill the masked
array with NaN, return NaN if every element is NaN
(`np.isnan(x).all()`), and otherwise apply the wrapped statistic. -/
def masked_array_to_ndarray (f : List (Option ℚ) → ℚ)
    (x : List MaskedEntry) : Option ℚ :=
  let xf := filled x
  if xf.all (fun v => v.isNone) then none else some (f xf)

/-- The decorated `coefficient_of_variation` applied to a masked array. -/
def coefficient_of_variation_masked (s : ℚ → ℚ) (x : List MaskedEntry) :
    Option ℚ :=
  masked_array_to_ndarray (coefficient_of_variation s) x

/-- The decorated `entropy` applied to a masked array. -/
def entropy_masked (lg : ℚ → ℚ) (x : List MaskedEntry) : Option ℚ :=
  masked_array_to_ndarray (entropy lg) x

/-! Filesystem model for the scripts: an effect trace over a filesystem
given as the list of existing paths.  Reads produce no effect; logging is
recorded but touches no data file. -/

inductive FsEffect where
  | mkdirExistOk (path : String)
  | appendText (path : String) (content : String)
  | writeFile (path : String)
  | logInfo (msg : String)
  | logWarning (msg : String)
deriving DecidableEq, Repr

/-- Whether an effect creates or modifies something on disk (log output is
not a data file). -/
def FsEffect.touchesFs : FsEffect → Bool
  | .mkdirExistOk _ => true
  | .appendText _ _ => true
  | .writeFile _ => true
  | .logInfo _ => false
  | .logWarning _ => false

/-! Path construction, following the scripts verbatim. -/

def laiDirOf (folderName : String) : String := folderName ++ "/lai"

def laiTifPath (folderName stem : String) : String :=
  laiDirOf folderName ++ "/" ++ stem ++ "_lai.tif"

def lutPklPath (folderName stem : String) : String :=
  folderName ++ "/lut/" ++ stem ++ ".pkl"

def erroredScenesDir (folderName : String) : String :=
  laiDirOf folderName ++ "/errored_scenes"

def erroredScenesTxt (folderName : String) : String :=
  erroredScenesDir folderName ++ "/errored_scenes.txt"

/-- Value of `scene.name` for a scene found by globbing `*.tif` files. -/
def sceneTifName (stem : String) : String := stem ++ ".tif"

/-- Value of `scene.name` for a scene found by globbing `*.xml` files. -/
def sceneXmlName (stem : String) : String := stem ++ ".xml"

/-- Python string split on underscore over the underlying character list:
split at every occurrence, keeping empty parts. -/
def splitOnChar (c : Char) : List Char → List (List Char)
  | [] => [[]]
  | a :: t =>
    match splitOnChar c t, decide (a = c) with
    | r, true => [] :: r
    | [], false => [[a]]
    | h :: r, false => (a :: h) :: r

def pySplitUnderscore (s : String) : List String :=
  (splitOnChar '_' s.toList).map (fun cs => String.mk cs)

/-- Last part of the underscore-split stem (a Python split is never empty). -/
def lastSplitPart (stem : String) : String :=
  (pySplitUnderscore stem).getLastD ""

/-- First part of the underscore-split stem. -/
def headSplitPart (stem : String) : String :=
  (pySplitUnderscore stem).headD ""

/-! Folder selection: the first two characters of the name must satisfy
the Python string digit test and the third must be an underscore.  The
Python digit test is modelled on decimal digits, which is exact for
the ASCII folder names the scripts are written for.  Indexing a string of
length one or two at position 2 raises `IndexError`, modelled by `none`. -/

def pyStrIsDigit (s : List Char) : Bool :=
  !s.isEmpty && s.all Char.isDigit

/-- The folder test of every traversal script: `some true` means the
script descends into the folder, `some false` that the entry is skipped,
`none` that the test itself raises an `IndexError`. -/
def folderSelected (name : List Char) : Option Bool :=
  if pyStrIsDigit (name.take 2) then
    match name.get? 2 with
    | some c => some (c == '_')
    | none => none
  else
    some false

/-- The folder condition as the spec states it: at least three characters,
the first two decimal digits, the third an underscore. -/
def folderClaimCond (name : List Char) : Bool :=
  match name with
  | c0 :: c1 :: c2 :: _ => c0.isDigit && c1.isDigit && (c2 == '_')
  | _ => false

/-- Names of one or two characters that are all digits: exactly the
entries on which the folder test raises `IndexError`. -/
def shortAllDigits (name : List Char) : Bool :=
  match name with
  | [c] => c.isDigit
  | [c, d] => c.isDigit && d.isDigit
  | _ => false

/-! Per-scene behaviour of the retrieval and LUT-generation scripts, as an
effect trace.  `fs` is the list of paths existing when the scene is
examined. -/

/-- One scene of `lai_retrieval_planetscope.py` (repository root): skip if
the LAI GeoTiff exists; if the LUT pickle is missing, warn and record the
scene in `errored_scenes.txt`; otherwise invert and write the GeoTiff and
the quicklook png. -/
def processScene_lai_ps (fs : List String) (folderName stem : String) :
    List FsEffect :=
  if fs.contains (laiTifPath folderName stem) then
    [.logInfo ("Skipping " ++ sceneTifName stem)]
  else if !fs.contains (lutPklPath folderName stem) then
    [.logWarning ("No LUT found for " ++ folderName ++ ": " ++ sceneTifName stem),
     .mkdirExistOk (erroredScenesDir folderName),
     .appendText (erroredScenesTxt folderName) (sceneTifName stem ++ "\n")]
  else
    [.writeFile (laiTifPath folderName stem),
     .writeFile (laiDirOf folderName ++ "/" ++ stem ++ "_lai.png"),
     .logInfo ("Finished LAI retrieval for " ++ folderName ++ ": " ++ sceneTifName stem)]

/-- One scene of `scripts/lai_retrieval_sentinel2.py`: scenes whose stem
does not end in a known spatial resolution are ignored; the LUT file is
the first part of the underscore-split stem followed by `_MTD_TL.pkl`. -/
def processScene_lai_s2 (fs : List String) (folderName stem : String) :
    List FsEffect :=
  if ¬ (lastSplitPart stem = "10m" ∨ lastSplitPart stem = "20m") then
    []
  else if fs.contains (laiTifPath folderName stem) then
    [.logInfo ("Skipping " ++ sceneTifName stem)]
  else if !fs.contains (folderName ++ "/lut/" ++ headSplitPart stem ++ "_MTD_TL.pkl") then
    [.logWarning ("No LUT found for " ++ folderName ++ ": " ++ sceneTifName stem),
     .mkdirExistOk (erroredScenesDir folderName),
     .appendText (erroredScenesTxt folderName) (sceneTifName stem ++ "\n")]
  else
    [.writeFile (laiTifPath folderName stem),
     .writeFile (laiDirOf folderName ++ "/" ++ stem ++ "_lai.png"),
     .logInfo ("Finished LAI retrieval for " ++ folderName ++ ": " ++ sceneTifName stem)]

/-- One scene of `scripts/lai_retrieval_planetscope.py`; `filePref` is the
`lai_file_prefix` chosen from the band selection (`lai_4bands` or
`lai_8bands`). -/
def processScene_lai_ps_scripts (filePref : String) (fs : List String)
    (folderName stem : String) : List FsEffect :=
  if fs.contains (laiDirOf folderName ++ "/" ++ stem ++ "_" ++ filePref ++ ".tif") then
    [.logInfo ("Skipping " ++ sceneTifName stem)]
  else if !fs.contains (lutPklPath folderName stem) then
    [.logWarning ("No LUT found for " ++ folderName ++ ": " ++ sceneTifName stem),
     .mkdirExistOk (erroredScenesDir folderName),
     .appendText (erroredScenesTxt folderName) (sceneTifName stem ++ "\n")]
  else
    [.writeFile (laiDirOf folderName ++ "/" ++ stem ++ "_" ++ filePref ++ ".tif"),
     .writeFile (laiDirOf folderName ++ "/" ++ stem ++ "_" ++ filePref ++ ".png"),
     .logInfo ("Finished LAI retrieval for " ++ folderName ++ ": " ++ sceneTifName stem)]

/-- One scene of `run_prosail_planetscope.py` (and, with the same
skip/write structure, `run_prosail_sentinel2.py`): skip silently when the
LUT pickle already exists, otherwise simulate and pickle the LUT. -/
def processScene_run_prosail (fs : List String) (folderName stem : String) :
    List FsEffect :=
  if fs.contains (lutPklPath folderName stem) then
    []
  else
    [.writeFile (lutPklPath folderName stem),
     .logInfo ("Processed " ++ folderName ++ ": " ++ sceneXmlName stem)]

/-! The whole of `scripts/lai_retrieval_planetscope.py` as a function of
its argument, the folder entries of the dataset directory and the
filesystem; exceptions are explicit. -/

inductive PyErr where
  | valueError (msg : String)
  | indexError
deriving DecidableEq, Repr

structure FolderEntry where
  name : String
  scenes : List String
deriving DecidableEq, Repr

def fourOrEightMsg (arg : String) : String :=
  "four_or_eight_bands must be either \"four\" or \"eight\", but is " ++ arg

/-- Folder-level behaviour of `scripts/lai_retrieval_planetscope.py`:
the folder-name test (which can raise `IndexError`), then `lai` directory
creation and the per-scene loop. -/
def processFolder_lai_ps_scripts (filePref : String) (fs : List String)
    (f : FolderEntry) : Except PyErr (List FsEffect) :=
  match folderSelected f.name.toList with
  | none => Except.error PyErr.indexError
  | some false => Except.ok []
  | some true =>
      Except.ok (FsEffect.mkdirExistOk (laiDirOf f.name) ::
        (f.scenes.map (processScene_lai_ps_scripts filePref fs f.name)).flatten)

def processFolders_lai_ps_scripts (filePref : String) (fs : List String) :
    List FolderEntry → Except PyErr (List FsEffect)
  | [] => Except.ok []
  | f :: rest =>
    match processFolder_lai_ps_scripts filePref fs f with
    | Except.error e => Except.error e
    | Except.ok efs =>
      match processFolders_lai_ps_scripts filePref fs rest with
      | Except.error e => Except.error e
      | Except.ok more => Except.ok (efs ++ more)

/-- Function `lai_retrieval_planetscope` from `scripts/lai_retrieval_planetscope.py`:
validate `four_or_eight_bands`, pick the band set and file name part,
then walk the folders. -/
def lai_retrieval_planetscope_scripts (four_or_eight_bands : String)
    (folders : List FolderEntry) (fs : List String) :
    Except PyErr (List FsEffect) :=
  if ¬ (four_or_eight_bands = "four" ∨ four_or_eight_bands = "eight") then
    Except.error (PyErr.valueError (fourOrEightMsg four_or_eight_bands))
  else
    let filePref := if four_or_eight_bands = "four" then "lai_4bands" else "lai_8bands"
    processFolders_lai_ps_scripts filePref fs folders

/-- The data files an `Except`-valued script run has created or changed:
none when it stopped with an exception before doing anything. -/
def emittedEffects : Except PyErr (List FsEffect) → List FsEffect
  | .ok l => l
  | .error _ => []

/-! PlanetScope metadata XML.  An element carries its tag name, the float
value of its text content when it has one (`float(firstChild.nodeValue)`),
and its child elements. -/

inductive XmlNode where
  | node (tag : String) (text : Option ℚ) (children : List XmlNode)

def XmlNode.tag : XmlNode → String
  | .node t _ _ => t

def XmlNode.text : XmlNode → Option ℚ
  | .node _ x _ => x

def XmlNode.children : XmlNode → List XmlNode
  | .node _ _ cs => cs

mutual

/-- All elements with the given tag in the subtree rooted at `n`, root
included, in document (preorder) order: the search performed by
`Document.getElementsByTagName`. -/
def elemsByTag (tag : String) : XmlNode → List XmlNode
  | .node t x cs =>
      (if t = tag then [XmlNode.node t x cs] else []) ++ elemsByTagList tag cs

def elemsByTagList (tag : String) : List XmlNode → List XmlNode
  | [] => []
  | c :: cs => elemsByTag tag c ++ elemsByTagList tag cs

end

/-- DOM element search `getElementsByTagName`: matching descendants of `n`, the
element itself excluded. -/
def getElementsByTagName (tag : String) (n : XmlNode) : List XmlNode :=
  elemsByTagList tag n.children

/-- The dictionary returned by `parse_metadata_xml`: exactly the three
keys `viewing_zenith_angle`, `relative_azimuth_angle`, `sun_elevation`. -/
structure PsAngles where
  viewing_zenith_angle : ℚ
  relative_azimuth_angle : ℚ
  sun_elevation : ℚ
deriving DecidableEq, Repr

/-- Parser `parse_metadata_xml` from `run_prosail_planetscope.py`: take the first
`eop:acquisitionParameters` element of the document, its first
`ps:Acquisition` descendant, and read the three angles from the first
matching descendant of each tag of `eop_angle_mapping`; `none` models the
exception raised when an element or its text is missing. -/
def parse_metadata_xml (doc : XmlNode) : Option PsAngles := do
  let eopParams ← (elemsByTag "eop:acquisitionParameters" doc).head?
  let psParams ← (getElementsByTagName "ps:Acquisition" eopParams).head?
  let vza ← ((getElementsByTagName "ps:spaceCraftViewAngle" psParams).head?).bind XmlNode.text
  let raa ← ((getElementsByTagName "ps:azimuthAngle" psParams).head?).bind XmlNode.text
  let sel ← ((getElementsByTagName "opt:illuminationElevationAngle" psParams).head?).bind XmlNode.text
  pure ⟨vza, raa, sel⟩

/-! Lookup tables.  A LUT row is a list of cells, a cell being NaN or a
number; `pandas.DataFrame.dropna()` with its default `how` of `any` drops
every row containing at least one NaN. -/

def rowHasNaN (row : List (Option ℚ)) : Bool :=
  row.any (fun v => v.isNone)

def dropna (t : List (List (Option ℚ))) : List (List (Option ℚ)) :=
  t.filter (fun r => !rowHasNaN r)

/-- What the LUT-generation scripts pickle for a scene, as a function of
the table returned by `generate_lut`: `lut = lut.dropna()` runs right
before `lut.to_pickle(lut_file)`. -/
def persistedLut (generated : List (List (Option ℚ))) :
    List (List (Option ℚ)) :=
  dropna generated

/-! The inversion.  `inv_img` and `retrieve_traits` live in the external
`rtm_inv` package; the claims take them as the reference definition of
nearest-spectrum search, so they are modelled from the spec here.
A LUT entry pairs the simulated reflectance in the bands selected by the
script with its `lai` trait value; an image is a list of pixels, a pixel
its list of observed band values. -/

structure LutEntry where
  refl : List ℚ
  lai : ℚ
deriving DecidableEq, Repr

/-- Root-mean-square error between two spectra; `s` abstracts the square
root, which the ranking below applies to the mean squared error. -/
def rmseCost (s : ℚ → ℚ) (a b : List ℚ) : ℚ :=
  s (listMean ((a.zip b).map (fun p => (p.1 - p.2) ^ 2)))

/-- Modelled from the spec: the indices of the `n` LUT entries whose
simulated reflectance has the lowest RMSE against the observed pixel
spectrum (stable ranking of all LUT indices by cost, first `n` kept). -/
def bestSolutions (s : ℚ → ℚ) (lutRefl : List (List ℚ)) (pix : List ℚ)
    (n : Nat) : List Nat :=
  (sortB (fun i j =>
      decide (rmseCost s (lutRefl.getD i []) pix ≤ rmseCost s (lutRefl.getD j []) pix))
    (List.range lutRefl.length)).take n

/-- Modelled from the spec: `inv_img` from `rtm_inv.core.inversion` with
the rmse cost function returns, for every pixel not masked out, the
`n_solutions` best-matching LUT indices; masked pixels yield nothing. -/
def inv_img (s : ℚ → ℚ) (lutRefl : List (List ℚ)) (img : List (List ℚ))
    (n_solutions : Nat) (mask : List Bool) : List (Option (List Nat)) :=
  (img.zip mask).map
    (fun pm => if pm.2 then none else some (bestSolutions s lutRefl pm.1 n_solutions))

/-- Numpy median: middle element of the sorted list, or the mean of the two
middle elements for even length. -/
def npMedian (l : List ℚ) : ℚ :=
  let sorted := sortB (fun a b => decide (a ≤ b)) l
  if l.length % 2 = 1 then sorted.getD (l.length / 2) 0
  else (sorted.getD (l.length / 2 - 1) 0 + sorted.getD (l.length / 2) 0) / 2

/-- Modelled from the spec: `retrieve_traits` with the single trait lai
and the median measure reduces, pixel by pixel, the `lai` values of the
selected LUT entries to their median. -/
def retrieve_traits (lut : List LutEntry) (lut_idxs : List (Option (List Nat))) :
    List (Option ℚ) :=
  lut_idxs.map (Option.map
    (fun idxs => npMedian (idxs.map (fun i => (lut.getD i ⟨[], 0⟩).lai))))

/-- The per-scene inversion of the LAI retrieval scripts (lines 74-89 of
`lai_retrieval_planetscope.py` and 105-120 of
`scripts/lai_retrieval_sentinel2.py`): mask the pixels whose first
observed band value equals 0, run `inv_img` with the rmse cost function
and `n_solutions=5000`, and retrieve the median `lai`; the result is the
`lai` band written to the output raster. -/
def lai_band_of_scene (s : ℚ → ℚ) (lut : List LutEntry)
    (obs_refl : List (List ℚ)) : List (Option ℚ) :=
  let sim_refl := lut.map LutEntry.refl
  let mask := obs_refl.map (fun pix => decide (pix.head? = some 0))
  retrieve_traits lut (inv_img s sim_refl obs_refl 5000 mask)

/-! Theorems settling the claims. -/

/-- C2: for every input array with at least one non-NaN element,
`coefficient_of_variation` returns the population standard deviation of
the non-NaN elements divided by the mean of the non-NaN elements. -/
theorem C2_coefficient_of_variation_spec (s : ℚ → ℚ) (x : List (Option ℚ))
    (h : filterNonNaN x ≠ []) :
    coefficient_of_variation s x =
      popStdDev s (filterNonNaN x) / listMean (filterNonNaN x) := rfl

theorem C2_coefficient_of_variation_spec_witness :
    filterNonNaN [some 1, none, some 3] ≠ [] ∧
      coefficient_of_variation id [some 1, none, some 3] =
        popStdDev id (filterNonNaN [some 1, none, some 3]) /
          listMean (filterNonNaN [some 1, none, some 3]) :=
  ⟨by decide, C2_coefficient_of_variation_spec id [some 1, none, some 3] (by decide)⟩

/-- C3: for every non-empty input array, `entropy` returns minus the sum,
over the distinct values `v` of the array, of `(c_v / n) * log (c_v / n)`
with `c_v` the number of occurrences of `v` and `n` the total number of
elements. -/
theorem C3_entropy_spec (lg : ℚ → ℚ) (x : List (Option ℚ)) (h : x ≠ []) :
    entropy lg x = entropy_spec lg x := by
  unfold entropy entropy_spec np_unique_counts
  rw [List.map_map]
  exact congrArg Neg.neg (((sortB_perm optLe x.dedup).map _).sum_eq)

theorem C3_entropy_spec_witness :
    ([some 1, some 2, some 1] : List (Option ℚ)) ≠ [] ∧
      entropy id [some 1, some 2, some 1] = entropy_spec id [some 1, some 2, some 1] :=
  ⟨by decide, C3_entropy_spec id [some 1, some 2, some 1] (by decide)⟩

/-- C8: every lookup table persisted by the LUT-generation scripts is the
`dropna` of the generated table, so none of its rows contains a NaN. -/
theorem C8_persisted_lut_no_nan (generated : List (List (Option ℚ)))
    (row : List (Option ℚ)) (h : row ∈ persistedLut generated) :
    rowHasNaN row = false := by
  unfold persistedLut dropna at h
  have hmem := List.mem_filter.mp h
  simpa using hmem.2

theorem C8_persisted_lut_no_nan_witness :
    [some (1 : ℚ)] ∈ persistedLut [[some 1], [none]] ∧
      rowHasNaN [some (1 : ℚ)] = false :=
  ⟨by decide, C8_persisted_lut_no_nan [[some 1], [none]] [some 1] (by decide)⟩

/-- C9: on a masked array whose elements are all masked, the decorator
fills every element with NaN and short-circuits to NaN without evaluating
the wrapped statistic (any wrapped function gives NaN), so both decorated
`coefficient_of_variation` and decorated `entropy` return NaN. -/
theorem C9_all_masked_short_circuits (x : List MaskedEntry)
    (h : ∀ e ∈ x, e.masked = true) :
    (∀ f : List (Option ℚ) → ℚ, masked_array_to_ndarray f x = none) ∧
      (∀ s : ℚ → ℚ, coefficient_of_variation_masked s x = none) ∧
      (∀ lg : ℚ → ℚ, entropy_masked lg x = none) := by
  have hall : (filled x).all (fun v => v.isNone) = true := by
    simp only [filled, List.all_eq_true]
    intro v hv
    obtain ⟨e, he, rfl⟩ := List.mem_map.mp hv
    simp [h e he]
  refine ⟨fun f => ?_, fun s => ?_, fun lg => ?_⟩
  · simp [masked_array_to_ndarray, hall]
  · simp [coefficient_of_variation_masked, masked_array_to_ndarray, hall]
  · simp [entropy_masked, masked_array_to_ndarray, hall]

theorem C9_all_masked_short_circuits_witness :
    (∀ e ∈ [MaskedEntry.mk 5 true], e.masked = true) ∧
      coefficient_of_variation_masked id [MaskedEntry.mk 5 true] = none :=
  ⟨by decide, (C9_all_masked_short_circuits [MaskedEntry.mk 5 true] (by decide)).2.1 id⟩

/-- C4: a scene whose target output already exists is skipped: the
PlanetScope retrieval and the Sentinel-2 retrieval emit at most a log line
when the LAI GeoTiff exists, and the LUT-generation step emits nothing
when the LUT pickle exists — no file is created or modified for that
scene. -/
theorem C4_existing_output_scene_untouched (fs : List String)
    (folderName stem : String) :
    (fs.contains (laiTifPath folderName stem) = true →
      (processScene_lai_ps fs folderName stem).all (fun e => !e.touchesFs) = true) ∧
    (fs.contains (laiTifPath folderName stem) = true →
      (processScene_lai_s2 fs folderName stem).all (fun e => !e.touchesFs) = true) ∧
    (fs.contains (lutPklPath folderName stem) = true →
      (processScene_run_prosail fs folderName stem).all (fun e => !e.touchesFs) = true) := by
  refine ⟨fun h => ?_, fun h => ?_, fun h => ?_⟩
  · have hm : laiTifPath folderName stem ∈ fs := by simpa using h
    simp [processScene_lai_ps, hm, FsEffect.touchesFs]
  · have hm : laiTifPath folderName stem ∈ fs := by simpa using h
    by_cases hr : lastSplitPart stem = "10m" ∨ lastSplitPart stem = "20m"
    · simp [processScene_lai_s2, hr, hm, FsEffect.touchesFs]
    · simp [processScene_lai_s2, hr]
  · have hm : lutPklPath folderName stem ∈ fs := by simpa using h
    simp [processScene_run_prosail, hm]

theorem C4_existing_output_scene_untouched_witness :
    (["33_abc/lai/scene_lai.tif", "33_abc/lut/scene.pkl"].contains
        (laiTifPath "33_abc" "scene") = true) ∧
    (["33_abc/lai/scene_lai.tif", "33_abc/lut/scene.pkl"].contains
        (lutPklPath "33_abc" "scene") = true) ∧
    (processScene_lai_ps ["33_abc/lai/scene_lai.tif", "33_abc/lut/scene.pkl"]
        "33_abc" "scene").all (fun e => !e.touchesFs) = true ∧
    (processScene_lai_s2 ["33_abc/lai/scene_lai.tif", "33_abc/lut/scene.pkl"]
        "33_abc" "scene").all (fun e => !e.touchesFs) = true ∧
    (processScene_run_prosail ["33_abc/lai/scene_lai.tif", "33_abc/lut/scene.pkl"]
        "33_abc" "scene").all (fun e => !e.touchesFs) = true :=
  ⟨by decide, by decide,
   (C4_existing_output_scene_untouched _ "33_abc" "scene").1 (by decide),
   (C4_existing_output_scene_untouched _ "33_abc" "scene").2.1 (by decide),
   (C4_existing_output_scene_untouched _ "33_abc" "scene").2.2 (by decide)⟩

/-- C5: when the LUT for a scene is missing (and the scene is not already
processed), each retrieval script emits exactly a warning log, the
`errored_scenes` directory creation and the append of the scene file name
(newline-terminated) to `errored_scenes.txt` — in particular no LAI output
is written and no exception is raised (the functions are total). -/
theorem C5_missing_lut_recorded (fs : List String)
    (folderName stem filePref : String) :
    (fs.contains (laiTifPath folderName stem) = false →
     fs.contains (lutPklPath folderName stem) = false →
      processScene_lai_ps fs folderName stem =
        [.logWarning ("No LUT found for " ++ folderName ++ ": " ++ sceneTifName stem),
         .mkdirExistOk (erroredScenesDir folderName),
         .appendText (erroredScenesTxt folderName) (sceneTifName stem ++ "\n")]) ∧
    ((lastSplitPart stem = "10m" ∨ lastSplitPart stem = "20m") →
     fs.contains (laiTifPath folderName stem) = false →
     fs.contains (folderName ++ "/lut/" ++ headSplitPart stem ++ "_MTD_TL.pkl") = false →
      processScene_lai_s2 fs folderName stem =
        [.logWarning ("No LUT found for " ++ folderName ++ ": " ++ sceneTifName stem),
         .mkdirExistOk (erroredScenesDir folderName),
         .appendText (erroredScenesTxt folderName) (sceneTifName stem ++ "\n")]) ∧
    (fs.contains (laiDirOf folderName ++ "/" ++ stem ++ "_" ++ filePref ++ ".tif") = false →
     fs.contains (lutPklPath folderName stem) = false →
      processScene_lai_ps_scripts filePref fs folderName stem =
        [.logWarning ("No LUT found for " ++ folderName ++ ": " ++ sceneTifName stem),
         .mkdirExistOk (erroredScenesDir folderName),
         .appendText (erroredScenesTxt folderName) (sceneTifName stem ++ "\n")]) := by
  refine ⟨fun h1 h2 => ?_, fun hr h1 h2 => ?_, fun h1 h2 => ?_⟩
  · have hm1 : laiTifPath folderName stem ∉ fs := by simpa using h1
    have hm2 : lutPklPath folderName stem ∉ fs := by simpa using h2
    simp [processScene_lai_ps, hm1, hm2]
  · have hm1 : laiTifPath folderName stem ∉ fs := by simpa using h1
    have hm2 : folderName ++ "/lut/" ++ headSplitPart stem ++ "_MTD_TL.pkl" ∉ fs := by
      simpa using h2
    simp [processScene_lai_s2, hr, hm1, hm2]
  · have hm1 : laiDirOf folderName ++ "/" ++ stem ++ "_" ++ filePref ++ ".tif" ∉ fs := by
      simpa using h1
    have hm2 : lutPklPath folderName stem ∉ fs := by simpa using h2
    simp [processScene_lai_ps_scripts, hm1, hm2]

theorem C5_missing_lut_recorded_witness :
    (lastSplitPart "S2A_10m" = "10m" ∨ lastSplitPart "S2A_10m" = "20m") ∧
    ([].contains (laiTifPath "33_abc" "S2A_10m") = false) ∧
    ([].contains (lutPklPath "33_abc" "S2A_10m") = false) ∧
    ([].contains ("33_abc" ++ "/lut/" ++ headSplitPart "S2A_10m" ++ "_MTD_TL.pkl") = false) ∧
    ([].contains (laiDirOf "33_abc" ++ "/" ++ "S2A_10m" ++ "_" ++ "lai_4bands" ++ ".tif") = false) ∧
    processScene_lai_ps [] "33_abc" "S2A_10m" =
      [.logWarning ("No LUT found for " ++ "33_abc" ++ ": " ++ sceneTifName "S2A_10m"),
       .mkdirExistOk (erroredScenesDir "33_abc"),
       .appendText (erroredScenesTxt "33_abc") (sceneTifName "S2A_10m" ++ "\n")] ∧
    processScene_lai_s2 [] "33_abc" "S2A_10m" =
      [.logWarning ("No LUT found for " ++ "33_abc" ++ ": " ++ sceneTifName "S2A_10m"),
       .mkdirExistOk (erroredScenesDir "33_abc"),
       .appendText (erroredScenesTxt "33_abc") (sceneTifName "S2A_10m" ++ "\n")] ∧
    processScene_lai_ps_scripts "lai_4bands" [] "33_abc" "S2A_10m" =
      [.logWarning ("No LUT found for " ++ "33_abc" ++ ": " ++ sceneTifName "S2A_10m"),
       .mkdirExistOk (erroredScenesDir "33_abc"),
       .appendText (erroredScenesTxt "33_abc") (sceneTifName "S2A_10m" ++ "\n")] :=
  ⟨by decide, by decide, by decide, by decide, by decide,
   (C5_missing_lut_recorded [] "33_abc" "S2A_10m" "lai_4bands").1 (by decide) (by decide),
   (C5_missing_lut_recorded [] "33_abc" "S2A_10m" "lai_4bands").2.1 (by decide) (by decide) (by decide),
   (C5_missing_lut_recorded [] "33_abc" "S2A_10m" "lai_4bands").2.2 (by decide) (by decide)⟩

/-- C6 counterexample: an entry named `12` has its first two characters
decimal digits and no third character, so the claim as stated demands it
be left untouched, but the folder test raises `IndexError` (`none`)
instead of evaluating to the skip outcome. -/
theorem C6_counterexample_short_digit_name :
    folderSelected ['1', '2'] = none ∧
      folderSelected ['1', '2'] ≠ some (folderClaimCond ['1', '2']) := by
  decide

/-- C6 amended: a script descends into an entry exactly when the name of
the entry has at least three characters with the first two decimal digits and
the third an underscore; an entry whose name is one or two digit
characters makes the folder test raise `IndexError`; every other entry is
left untouched. -/
theorem C6_amended_folder_selection (name : List Char) :
    folderSelected name =
      if shortAllDigits name then none else some (folderClaimCond name) := by
  rcases name with _ | ⟨c0, _ | ⟨c1, _ | ⟨c2, rest⟩⟩⟩
  · rfl
  · cases h0 : c0.isDigit <;>
      simp [folderSelected, pyStrIsDigit, shortAllDigits, folderClaimCond, h0]
  · cases h0 : c0.isDigit <;> cases h1 : c1.isDigit <;>
      simp [folderSelected, pyStrIsDigit, shortAllDigits, folderClaimCond, h0, h1]
  · cases h0 : c0.isDigit <;> cases h1 : c1.isDigit <;>
      simp [folderSelected, pyStrIsDigit, shortAllDigits, folderClaimCond, h0, h1]

theorem processFolder_lai_ps_scripts_error_eq (filePref : String)
    (fs : List String) (f : FolderEntry) (e : PyErr)
    (h : processFolder_lai_ps_scripts filePref fs f = Except.error e) :
    e = PyErr.indexError := by
  unfold processFolder_lai_ps_scripts at h
  rcases hsel : folderSelected f.name.toList with _ | b
  · rw [hsel] at h
    cases h
    rfl
  · rw [hsel] at h
    cases b <;> cases h

theorem processFolders_lai_ps_scripts_no_valueError (filePref : String)
    (fs : List String) (folders : List FolderEntry) (m : String) :
    processFolders_lai_ps_scripts filePref fs folders ≠
      Except.error (PyErr.valueError m) := by
  induction folders with
  | nil => simp [processFolders_lai_ps_scripts]
  | cons f rest ih =>
    intro hcontra
    rw [processFolders_lai_ps_scripts] at hcontra
    rcases hA : processFolder_lai_ps_scripts filePref fs f with e | l
    · rw [hA] at hcontra
      simp at hcontra
      have hidx := processFolder_lai_ps_scripts_error_eq filePref fs f e hA
      rw [hcontra] at hidx
      cases hidx
    · rw [hA] at hcontra
      rcases hB : processFolders_lai_ps_scripts filePref fs rest with e2 | l2
      · rw [hB] at hcontra
        simp at hcontra
        exact ih (by rw [hB, hcontra])
      · rw [hB] at hcontra
        simp at hcontra

/-- C10: the scripts-variant `lai_retrieval_planetscope` raises
`ValueError` exactly when `four_or_eight_bands` is neither `four` nor
`eight`, and in that case it stops with the error message before touching
the filesystem: the run creates and modifies nothing. -/
theorem C10_value_error_iff_bad_band_arg (arg : String)
    (folders : List FolderEntry) (fs : List String) :
    ((∃ m, lai_retrieval_planetscope_scripts arg folders fs =
        Except.error (PyErr.valueError m)) ↔
      ¬ (arg = "four" ∨ arg = "eight")) ∧
    (¬ (arg = "four" ∨ arg = "eight") →
      lai_retrieval_planetscope_scripts arg folders fs =
        Except.error (PyErr.valueError (fourOrEightMsg arg)) ∧
      emittedEffects (lai_retrieval_planetscope_scripts arg folders fs) = []) := by
  by_cases h : arg = "four" ∨ arg = "eight"
  · refine ⟨⟨?_, fun hn => absurd h hn⟩, fun hn => absurd h hn⟩
    rintro ⟨m, hm⟩
    simp only [lai_retrieval_planetscope_scripts, h, not_true_eq_false,
      if_false] at hm
    exact absurd hm (processFolders_lai_ps_scripts_no_valueError _ _ _ _)
  · refine ⟨⟨fun _ => h, fun _ => ?_⟩, fun _ => ?_⟩
    · exact ⟨fourOrEightMsg arg, by simp [lai_retrieval_planetscope_scripts, h]⟩
    · constructor
      · simp [lai_retrieval_planetscope_scripts, h]
      · simp [lai_retrieval_planetscope_scripts, h, emittedEffects]

theorem C10_value_error_iff_bad_band_arg_witness :
    (¬ ("five" = "four" ∨ "five" = "eight")) ∧
      lai_retrieval_planetscope_scripts "five" [] [] =
        Except.error (PyErr.valueError (fourOrEightMsg "five")) ∧
      emittedEffects (lai_retrieval_planetscope_scripts "five" [] []) = [] :=
  ⟨by decide, (C10_value_error_iff_bad_band_arg "five" [] []).2 (by decide)⟩

/-- C7: on a metadata document holding the expected acquisition
parameters — a first `eop:acquisitionParameters` element whose first
`ps:Acquisition` descendant contains the three angle elements —
`parse_metadata_xml` returns the dictionary with exactly the keys
`viewing_zenith_angle`, `relative_azimuth_angle` and `sun_elevation`
(the three fields of `PsAngles`), bound to the float text of
`ps:spaceCraftViewAngle`, `ps:azimuthAngle` and
`opt:illuminationElevationAngle` respectively. -/
theorem C7_parse_metadata_xml_angles (doc eopParams psParams nv nr ne : XmlNode)
    (v r sel : ℚ)
    (h1 : (elemsByTag "eop:acquisitionParameters" doc).head? = some eopParams)
    (h2 : (getElementsByTagName "ps:Acquisition" eopParams).head? = some psParams)
    (h3 : (getElementsByTagName "ps:spaceCraftViewAngle" psParams).head? = some nv)
    (h4 : nv.text = some v)
    (h5 : (getElementsByTagName "ps:azimuthAngle" psParams).head? = some nr)
    (h6 : nr.text = some r)
    (h7 : (getElementsByTagName "opt:illuminationElevationAngle" psParams).head? = some ne)
    (h8 : ne.text = some sel) :
    parse_metadata_xml doc = some ⟨v, r, sel⟩ := by
  simp [parse_metadata_xml, h1, h2, h3, h4, h5, h6, h7, h8]

/-- A metadata document of the shape delivered with PlanetScope scenes,
used to witness `C7_parse_metadata_xml_angles`. -/
def psDocExample : XmlNode :=
  .node "ps:EarthObservation" none
    [.node "eop:metaDataProperty" none [],
     .node "eop:acquisitionParameters" none
       [.node "ps:Acquisition" none
         [.node "ps:spaceCraftViewAngle" (some 3) [],
          .node "ps:azimuthAngle" (some 11) [],
          .node "opt:illuminationElevationAngle" (some 64) []]]]

def psAcqExample : XmlNode :=
  .node "ps:Acquisition" none
    [.node "ps:spaceCraftViewAngle" (some 3) [],
     .node "ps:azimuthAngle" (some 11) [],
     .node "opt:illuminationElevationAngle" (some 64) []]

def eopParamsExample : XmlNode :=
  .node "eop:acquisitionParameters" none [psAcqExample]

theorem C7_parse_metadata_xml_angles_witness :
    (elemsByTag "eop:acquisitionParameters" psDocExample).head? = some eopParamsExample ∧
    (getElementsByTagName "ps:Acquisition" eopParamsExample).head? = some psAcqExample ∧
    (getElementsByTagName "ps:spaceCraftViewAngle" psAcqExample).head? =
      some (.node "ps:spaceCraftViewAngle" (some 3) []) ∧
    (getElementsByTagName "ps:azimuthAngle" psAcqExample).head? =
      some (.node "ps:azimuthAngle" (some 11) []) ∧
    (getElementsByTagName "opt:illuminationElevationAngle" psAcqExample).head? =
      some (.node "opt:illuminationElevationAngle" (some 64) []) ∧
    parse_metadata_xml psDocExample = some ⟨3, 11, 64⟩ :=
  ⟨rfl, rfl, rfl, rfl, rfl,
   C7_parse_metadata_xml_angles psDocExample eopParamsExample psAcqExample
     (.node "ps:spaceCraftViewAngle" (some 3) [])
     (.node "ps:azimuthAngle" (some 11) [])
     (.node "opt:illuminationElevationAngle" (some 64) [])
     3 11 64 rfl rfl rfl rfl rfl rfl rfl rfl⟩

/-- Positions survive zipping a list with a function of itself, as the
retrieval scripts do when pairing an image with its zero-mask. -/
theorem get_zip_map {α β : Type} (l : List α) (g : α → β) :
    ∀ (i : Nat) (a : α), l.get? i = some a →
      (l.zip (l.map g)).get? i = some (a, g a) := by
  induction l with
  | nil => intro i a h; simp at h
  | cons x t ih =>
    intro i a h
    cases i with
    | zero =>
      simp only [List.get?] at h
      injection h with h
      simp [h]
    | succ n =>
      simp only [List.get?] at h
      simpa using ih n a h

/-- C1: for every pixel of a scene that is not masked out (its first
observed band value is nonzero), the `lai` band produced by the retrieval
pipeline is the median of the `lai` trait values of the `n_solutions=5000`
LUT entries whose simulated reflectance has the lowest RMSE against the
observed reflectance of the pixel, with `inv_img` and `retrieve_traits` as the
reference definition of the nearest-spectrum search. -/
theorem C1_lai_band_is_median_of_best (s : ℚ → ℚ) (lut : List LutEntry)
    (obs_refl : List (List ℚ)) (i : Nat) (pix : List ℚ)
    (hp : obs_refl.get? i = some pix) (hm : pix.head? ≠ some 0) :
    (lai_band_of_scene s lut obs_refl).get? i =
      some (some (npMedian
        ((bestSolutions s (lut.map LutEntry.refl) pix 5000).map
          (fun j => (lut.getD j ⟨[], 0⟩).lai)))) := by
  have hz := get_zip_map obs_refl (fun p => decide (p.head? = some 0)) i pix hp
  have hdm : decide (pix.head? = some 0) = false := decide_eq_false hm
  unfold lai_band_of_scene retrieve_traits inv_img
  rw [List.get?_map, List.get?_map, hz]
  simp [hdm]

theorem C1_lai_band_is_median_of_best_witness :
    (([[3]] : List (List ℚ)).get? 0 = some [3]) ∧
      (([3] : List ℚ).head? ≠ some 0) ∧
      (lai_band_of_scene id [⟨[1], 2⟩] [[3]]).get? 0 =
        some (some (npMedian
          ((bestSolutions id (([⟨[1], 2⟩] : List LutEntry).map LutEntry.refl) [3] 5000).map
            (fun j => (([⟨[1], 2⟩] : List LutEntry).getD j ⟨[], 0⟩).lai)))) :=
  ⟨rfl, by decide,
   C1_lai_band_is_median_of_best id [⟨[1], 2⟩] [[3]] 0 [3] rfl (by decide)⟩

end Lai4sr
